import Mathlib

/-!
Verification of the liberopus book-recommendation service.

The definitions below are shallow embeddings of the Python source:
machine floats for average ratings become `ℚ`, SQLite tables become
lists of rows, dict lookups become association-list lookups, and the
randomness of `random.sample` / the remote LLM is made explicit as
parameters.
-/

namespace Liberopus

/-- A book as carried by the recommendation code paths
(`main.py` `Book` / `api.py` pydantic `Book`). -/
structure Book where
  id : String
  title : String
  author : String
  description : String
  average_rating : ℚ
  topics : List String
  publication_year : Option Int := none
  page_count : Option Int := none
deriving DecidableEq

/-- Lookup in a Python dict modelled as an association list
(`user_ratings.get(key)`). -/
def ratingsLookup (m : List (String × Int)) (k : String) : Option Int :=
  (m.find? (fun p => p.1 = k)).map Prod.snd

/-- `user_ratings.get(str(book.id), 0)`. -/
def ratingsGetD (m : List (String × Int)) (k : String) : Int :=
  (ratingsLookup m k).getD 0

/-- Python list indexing `l[i]`, including negative indices;
`none` models an `IndexError`. -/
def pyIndex (l : List α) (i : Int) : Option α :=
  if 0 ≤ i then l.get? i.toNat
  else if -(l.length : Int) ≤ i then l.get? (((l.length : Int) + i).toNat)
  else none

/-- Descending comparison on average rating, used to embed
`sorted(unrated_books, key=lambda x: x.average_rating, reverse=True)`.
Python's sort is stable; `List.insertionSort` with this relation is the
same stable descending sort. -/
def ratingGE (a b : Book) : Prop := b.average_rating ≤ a.average_rating

instance : DecidableRel ratingGE := fun a b =>
  inferInstanceAs (Decidable (b.average_rating ≤ a.average_rating))

instance : IsTotal Book ratingGE :=
  ⟨fun a b => (le_total b.average_rating a.average_rating)⟩

instance : IsTrans Book ratingGE :=
  ⟨fun _ _ _ h h2 => le_trans h2 h⟩

/-- The collection loop
`for rank in rankings[:num]: recommended_books.append(unrated_books[rank-1])`;
`none` models the `IndexError` aborting the whole loop. -/
def pickAll (l : List Book) : List Int → Option (List Book)
  | [] => some []
  | r :: rs =>
    match pyIndex l (r - 1) with
    | none => none
    | some b =>
      match pickAll l rs with
      | none => none
      | some bs => some (b :: bs)

/-- `RecommendationEngine.get_recommendations` (`main.py` lines 155-195).
`rankings` is the parsed reply of the remote model for the liked-books
branch; `none` models any exception raised while calling or parsing it
(the `except` clause then falls back to the rating-ordered list). -/
def get_recommendations (rankings : Option (List Int))
    (user_books available_books : List Book)
    (user_ratings : List (String × Int)) (num_recommendations : ℕ := 5) :
    List Book :=
  let unrated_books :=
    available_books.filter (fun b => (ratingsLookup user_ratings b.id).isNone)
  if unrated_books = [] then []
  else
    let liked_books :=
      user_books.filter (fun b => 4 ≤ ratingsGetD user_ratings b.id)
    if liked_books = [] then
      (unrated_books.insertionSort ratingGE).take num_recommendations
    else
      match rankings with
      | none => (unrated_books.insertionSort ratingGE).take num_recommendations
      | some rs =>
        match pickAll unrated_books (rs.take num_recommendations) with
        | some recommended_books => recommended_books
        | none =>
          (unrated_books.insertionSort ratingGE).take num_recommendations

/-- A row of the `books` table as touched by the rating endpoint. -/
structure BookRow where
  id : String
  average_rating : ℚ
deriving DecidableEq

/-- A row of the `ratings` table (`id, book_id, rating, timestamp`). -/
structure RatingRow where
  rowId : ℕ
  book_id : String
  rating : Int
  timestamp : String
deriving DecidableEq

/-- The SQLite state visible to the rating endpoint. -/
structure DB where
  books : List BookRow
  ratings : List RatingRow
deriving DecidableEq

/-- A FastAPI `HTTPException` (status code and detail message). -/
structure HTTPError where
  status_code : ℕ
  detail : String
deriving DecidableEq

/-- Python `str(e)` for a FastAPI `HTTPException`:
`"{status_code}: {detail}"`. -/
def HTTPError.str (e : HTTPError) : String :=
  toString e.status_code ++ ": " ++ e.detail

/-- The JSON body returned by a successful rating submission. -/
structure RatingResponse where
  message : String
  book_id : String
  rating : Int
  average_rating : ℚ
deriving DecidableEq

/-- Mean of the ratings of a list of rating rows, as computed by
SQL `AVG(rating)` (`none` when there are no rows). -/
def ratingAvg (rows : List RatingRow) : Option ℚ :=
  if rows = [] then none
  else some (((rows.map (fun r => (r.rating : ℚ))).sum) / rows.length)

/-- The body of the `try:` block of `add_rating` (`api.py` lines 240-295):
existence check (404), range check (400), upsert of the rating row,
recomputation of the book's stored average.  `now` is
`datetime.now().isoformat()` and `freshRowId` the autoincrement key a new
row would receive. -/
def add_rating_inner (db : DB) (book_id : String) (rating : Int)
    (now : String) (freshRowId : ℕ) :
    Except HTTPError (RatingResponse × DB) :=
  if ¬ db.books.any (fun b => b.id = book_id) then
    .error ⟨404, "Book not found"⟩
  else if ¬ (1 ≤ rating ∧ rating ≤ 5) then
    .error ⟨400, "Rating must be between 1 and 5"⟩
  else
    let existing_rating := db.ratings.find? (fun r => r.book_id = book_id)
    let ratings' :=
      if existing_rating.isSome then
        db.ratings.map (fun r =>
          if r.book_id = book_id then
            { r with rating := rating, timestamp := now }
          else r)
      else
        db.ratings ++ [⟨freshRowId, book_id, rating, now⟩]
    let avg_rating :=
      ratingAvg (ratings'.filter (fun r => r.book_id = book_id))
    let stored := avg_rating.getD 0
    let books' := db.books.map (fun b =>
      if b.id = book_id then { b with average_rating := stored } else b)
    .ok (⟨"Rating submitted successfully", book_id, rating, stored⟩,
         ⟨books', ratings'⟩)

/-- `add_rating` (`api.py` lines 236-299).  The surrounding
`except Exception as e: raise HTTPException(status_code=500, detail=str(e))`
catches every exception raised inside the `try:` block — including the
`HTTPException`s that the block itself raises, since FastAPI's
`HTTPException` subclasses `Exception` — and re-raises it with status 500.
Both raises happen before any row is written, so on error the returned
state is the unchanged input state. -/
def add_rating (db : DB) (book_id : String) (rating : Int)
    (now : String) (freshRowId : ℕ) :
    Except HTTPError RatingResponse × DB :=
  match add_rating_inner db book_id rating now freshRowId with
  | .ok (resp, db') => (.ok resp, db')
  | .error e => (.error ⟨500, e.str⟩, db)

/-! ### SHA-256 (`hashlib.sha256`), as used by `generate_book_id` -/

/-- Truncation to a 32-bit word. -/
def w32 (x : ℕ) : ℕ := x % 2 ^ 32

/-- 32-bit rotate right. -/
def rotr (n x : ℕ) : ℕ := w32 ((x >>> n) ||| (x <<< (32 - n)))

/-- SHA-256 working state: eight 32-bit words. -/
structure Hash8 where
  a : ℕ
  b : ℕ
  c : ℕ
  d : ℕ
  e : ℕ
  f : ℕ
  g : ℕ
  h : ℕ
deriving DecidableEq

/-- SHA-256 initial hash value. -/
def initH : Hash8 :=
  ⟨1779033703, 3144134277, 1013904242, 2773480762,
   1359893119, 2600822924, 528734635, 1541459225⟩

/-- SHA-256 round constants. -/
def sha256K : List ℕ :=
  [1116352408, 1899447441, 3049323471, 3921009573,
   961987163, 1508970993, 2453635748, 2870763221,
   3624381080, 310598401, 607225278, 1426881987,
   1925078388, 2162078206, 2614888103, 3248222580,
   3835390401, 4022224774, 264347078, 604807628,
   770255983, 1249150122, 1555081692, 1996064986,
   2554220882, 2821834349, 2952996808, 3210313671,
   3336571891, 3584528711, 113926993, 338241895,
   666307205, 773529912, 1294757372, 1396182291,
   1695183700, 1986661051, 2177026350, 2456956037,
   2730485921, 2820302411, 3259730800, 3345764771,
   3516065817, 3600352804, 4094571909, 275423344,
   430227734, 506948616, 659060556, 883997877,
   958139571, 1322822218, 1537002063, 1747873779,
   1955562222, 2024104815, 2227730452, 2361852424,
   2428436474, 2756734187, 3204031479, 3329325298]

/-- Big-endian combination of bytes into 32-bit words. -/
def toWords : List ℕ → List ℕ
  | b0 :: b1 :: b2 :: b3 :: rest =>
    (b0 * 2 ^ 24 + b1 * 2 ^ 16 + b2 * 2 ^ 8 + b3) :: toWords rest
  | _ => []

/-- One step of the SHA-256 message-schedule extension: appends the
next word to the schedule built so far. -/
def scheduleStep (ws : List ℕ) : List ℕ :=
  let i := ws.length
  let g0 := fun (j : ℕ) => ws.getD j 0
  let s0 := fun (x : ℕ) => rotr 7 x ^^^ rotr 18 x ^^^ (x >>> 3)
  let s1 := fun (x : ℕ) => rotr 17 x ^^^ rotr 19 x ^^^ (x >>> 10)
  ws ++ [w32 (g0 (i - 16) + s0 (g0 (i - 15)) + g0 (i - 7) + s1 (g0 (i - 2)))]

/-- One SHA-256 compression round for a given `(constant, word)` pair. -/
def roundStep (st : Hash8) (kw : ℕ × ℕ) : Hash8 :=
  let bigS1 := rotr 6 st.e ^^^ rotr 11 st.e ^^^ rotr 25 st.e
  let ch := (st.e &&& st.f) ^^^ ((0xffffffff ^^^ st.e) &&& st.g)
  let t1 := w32 (st.h + bigS1 + ch + kw.1 + kw.2)
  let bigS0 := rotr 2 st.a ^^^ rotr 13 st.a ^^^ rotr 22 st.a
  let maj := (st.a &&& st.b) ^^^ (st.a &&& st.c) ^^^ (st.b &&& st.c)
  let t2 := w32 (bigS0 + maj)
  ⟨w32 (t1 + t2), st.a, st.b, st.c, w32 (st.d + t1), st.e, st.f, st.g⟩

/-- Compression of one 64-byte block into the running hash state. -/
def compressBlock (st : Hash8) (block : List ℕ) : Hash8 :=
  let ws := scheduleStep^[48] (toWords block)
  let t := (sha256K.zip ws).foldl roundStep st
  ⟨w32 (st.a + t.a), w32 (st.b + t.b), w32 (st.c + t.c), w32 (st.d + t.d),
   w32 (st.e + t.e), w32 (st.f + t.f), w32 (st.g + t.g), w32 (st.h + t.h)⟩

/-- Big-endian 8-byte encoding of the message bit length. -/
def lenBytes (n : ℕ) : List ℕ :=
  [n / 2 ^ 56 % 256, n / 2 ^ 48 % 256, n / 2 ^ 40 % 256, n / 2 ^ 32 % 256,
   n / 2 ^ 24 % 256, n / 2 ^ 16 % 256, n / 2 ^ 8 % 256, n % 256]

/-- SHA-256 padding: `0x80`, zeros to 56 mod 64, then the bit length. -/
def sha256pad (msg : List ℕ) : List ℕ :=
  msg ++ [0x80] ++ List.replicate ((119 - msg.length % 64) % 64) 0
      ++ lenBytes (msg.length * 8)

/-- Split a byte list into 64-byte chunks. -/
def chunks64 (l : List ℕ) : List (List ℕ) :=
  if h : l = [] then []
  else l.take 64 :: chunks64 (l.drop 64)
termination_by l.length
decreasing_by
  simp only [List.length_drop]
  exact Nat.sub_lt (List.length_pos.mpr h) (by decide)

/-- SHA-256 of a byte string. -/
def sha256 (msg : List ℕ) : Hash8 :=
  (chunks64 (sha256pad msg)).foldl compressBlock initH

/-- Big-endian bytes of a 32-bit word. -/
def wordBytes (w : ℕ) : List ℕ :=
  [w / 2 ^ 24 % 256, w / 2 ^ 16 % 256, w / 2 ^ 8 % 256, w % 256]

/-- The 32-byte SHA-256 digest. -/
def digestBytes (st : Hash8) : List ℕ :=
  wordBytes st.a ++ wordBytes st.b ++ wordBytes st.c ++ wordBytes st.d ++
  wordBytes st.e ++ wordBytes st.f ++ wordBytes st.g ++ wordBytes st.h

/-- The sixteen lowercase hexadecimal digits. -/
def hexDigits : List Char := "0123456789abcdef".data

/-- Hexadecimal digit of a nibble. -/
def hexChar (n : ℕ) : Char :=
  hexDigits.get ⟨n % 16, Nat.mod_lt n (by decide)⟩

/-- Lowercase hex rendering of a byte string (`hexdigest`). -/
def bytesToHex (bs : List ℕ) : List Char :=
  bs.flatMap (fun b => [hexChar (b / 16), hexChar b])

/-- UTF-8 encoding of one character (`.encode('utf-8')`). -/
def utf8Char (c : Char) : List ℕ :=
  let n := c.toNat
  if n < 0x80 then [n]
  else if n < 0x800 then [0xc0 + n / 64, 0x80 + n % 64]
  else if n < 0x10000 then
    [0xe0 + n / 4096, 0x80 + n / 64 % 64, 0x80 + n % 64]
  else
    [0xf0 + n / 262144, 0x80 + n / 4096 % 64, 0x80 + n / 64 % 64,
     0x80 + n % 64]

/-- UTF-8 encoding of a string. -/
def utf8Encode (s : String) : List ℕ := s.data.flatMap utf8Char

/-- `generate_book_id` (`api.py` lines 33-36 and
`app/llm_recommender.py` lines 32-35):
`hashlib.sha256((title + author).encode('utf-8')).hexdigest()[:16]`. -/
def generate_book_id (title author : String) : String :=
  String.mk ((bytesToHex (digestBytes (sha256 (utf8Encode (title ++ author))))).take 16)

/-! ### External recommendation oracle (`app/llm_recommender.py`) -/

/-- A recommendation object as produced by the remote model or the
fallback pool. -/
structure RecCand where
  title : String
  author : String
  explanation : String
  technical_level : String
  topics : List String
deriving DecidableEq

/-- The fixed fallback pool of `get_fallback_recommendations`
(`app/llm_recommender.py` lines 47-86). -/
def fallback_books : List RecCand :=
  [⟨"Clean Code", "Robert C. Martin",
    "A fundamental guide to writing maintainable code",
    "Intermediate", ["Software Engineering", "Best Practices"]⟩,
   ⟨"Design Patterns", "Erich Gamma et al.",
    "Essential patterns for software design",
    "Advanced", ["Software Design", "Architecture"]⟩,
   ⟨"Python Crash Course", "Eric Matthes",
    "Comprehensive introduction to Python programming",
    "Beginner", ["Python", "Programming"]⟩,
   ⟨"The Pragmatic Programmer", "Andrew Hunt and David Thomas",
    "Practical advice for software development",
    "Intermediate", ["Software Development", "Best Practices"]⟩,
   ⟨"JavaScript: The Good Parts", "Douglas Crockford",
    "Focus on the best features of JavaScript",
    "Intermediate", ["JavaScript", "Web Development"]⟩]

/-- `random.sample(fallback_books, min(5, len(fallback_books)))`: the pool
has 5 entries, so the sample is the whole pool in a random order.  The
randomness is made explicit as `sample`, the list of chosen indices —
`random.sample` guarantees it has `min(5, len(pool)) = 5` distinct
entries. -/
def get_fallback_recommendations (sample : List (Fin 5)) : List RecCand :=
  sample.map (fun i => fallback_books.get ⟨i.val, i.isLt⟩)

/-- The remote model's behaviour on one attempt, as seen by
`generate_gemini_recommendations`. -/
inductive GeminiResponse where
  | timeout
  | invalidJson (raw : String)
  | parsed (recs : List RecCand)

/-- One invocation of the body of `generate_gemini_recommendations`
(`app/llm_recommender.py` lines 88-157).  Returns the outcome together
with whether a remote model call was made.  `Except.error` models the
re-raised `asyncio.TimeoutError` (the only exception the body lets
escape, to trigger a tenacity retry); a `json.JSONDecodeError`, an empty
parse result and a missing API key all return the fallback list
directly. -/
def generate_gemini_attempt (apiKey : Option String) (sample : List (Fin 5))
    (resp : GeminiResponse) : Except Unit (List RecCand) × Bool :=
  match apiKey with
  | none => (.ok (get_fallback_recommendations sample), false)
  | some _ =>
    match resp with
    | .timeout => (.error (), true)
    | .invalidJson _ => (.ok (get_fallback_recommendations sample), true)
    | .parsed recs =>
      if recs = [] then (.ok (get_fallback_recommendations sample), true)
      else (.ok recs, true)

/-- tenacity's `wait_exponential(multiplier, min, max)`:
`max(mn, min(multiplier * 2 ^ attemptNumber, mx))`. -/
def wait_exponential (multiplier mn mx attemptNumber : ℕ) : ℕ :=
  max mn (min (multiplier * 2 ^ attemptNumber) mx)

/-- Trace of one run of a tenacity-wrapped coroutine: final outcome
(`error` is the `RetryError` raised after the attempts are exhausted),
how many times the wrapped function ran, how many of those runs made a
remote call, and the backoff sleeps between attempts. -/
structure RetryTrace (α : Type) where
  result : Except Unit α
  attempts : ℕ
  remoteCalls : ℕ
  waits : List ℕ

/-- The retry loop of
`@retry(stop=stop_after_attempt(3), wait=wait_exponential(multiplier=1, min=4, max=10))`:
`fuel` is the number of attempts still allowed and `n` the 1-based number
of the current attempt; between attempts tenacity sleeps
`wait_exponential` of the just-failed attempt's number. -/
def retryGo (attempt : ℕ → Except Unit α × Bool) :
    (fuel n : ℕ) → RetryTrace α
  | 0, _ => ⟨.error (), 0, 0, []⟩
  | 1, n =>
    let (r, c) := attempt n
    ⟨r, 1, cond c 1 0, []⟩
  | (f + 2), n =>
    let (r, c) := attempt n
    match r with
    | .ok a => ⟨.ok a, 1, cond c 1 0, []⟩
    | .error _ =>
      let t := retryGo attempt (f + 1) (n + 1)
      ⟨t.result, t.attempts + 1, t.remoteCalls + cond c 1 0,
       wait_exponential 1 4 10 n :: t.waits⟩

/-- `generate_gemini_recommendations` as decorated: up to 3 attempts. -/
def generate_gemini_recommendations (apiKey : Option String)
    (sample : List (Fin 5)) (responses : ℕ → GeminiResponse) :
    RetryTrace (List RecCand) :=
  retryGo (fun n => generate_gemini_attempt apiKey sample (responses n)) 3 1

/-- A rated book as assembled by `get_personalized_recommendations`
(title, author, rating, topics). -/
structure RatedBookInfo where
  title : String
  author : String
  rating : ℚ
  topics : List String
deriving DecidableEq

/-- A book dict of the `user_history` argument. -/
structure HistoryBook where
  id : String
  title : String
  author : String
  topics : List String
deriving DecidableEq

/-- The `rated_books` list built by `get_personalized_recommendations`
(`app/llm_recommender.py` lines 169-180): for each entry of the ratings
dict, the first history book with that id, if any. -/
def build_rated_books (user_history : List HistoryBook)
    (user_ratings : List (String × ℚ)) : List RatedBookInfo :=
  user_ratings.filterMap (fun p =>
    (user_history.find? (fun b => b.id = p.1)).map
      (fun b => ⟨b.title, b.author, p.2, b.topics⟩))

/-- A recommendation reshaped to the Book model format
(`app/llm_recommender.py` lines 196-205). -/
structure FormattedRec where
  id : String
  title : String
  author : String
  description : String
  topics : List String
  average_rating : ℚ
  publication_year : Option Int
  page_count : Option Int
deriving DecidableEq

/-- The per-recommendation conversion inside
`get_personalized_recommendations`. -/
def formatRec (rec : RecCand) : FormattedRec :=
  ⟨generate_book_id rec.title rec.author, rec.title, rec.author,
   rec.explanation, rec.topics, 0, none, none⟩

/-- What the caller of `get_personalized_recommendations` receives:
either the raw fallback list (no-ratings and error paths) or the
formatted LLM/fallback output. -/
inductive PersonalizedResult where
  | fallbackRaw (recs : List RecCand)
  | formatted (recs : List FormattedRec)
deriving DecidableEq

/-- `get_personalized_recommendations` (`app/llm_recommender.py` lines
159-218).  The outer `except Exception` turns the `RetryError` escaping
the retried call into a plain return of the fallback list, so the
function never raises. -/
def get_personalized_recommendations (apiKey : Option String)
    (sample : List (Fin 5)) (responses : ℕ → GeminiResponse)
    (user_history : List HistoryBook) (user_ratings : List (String × ℚ)) :
    PersonalizedResult :=
  let rated_books := build_rated_books user_history user_ratings
  if rated_books = [] then
    .fallbackRaw (get_fallback_recommendations sample)
  else
    match (generate_gemini_recommendations apiKey sample responses).result with
    | .error _ => .fallbackRaw (get_fallback_recommendations sample)
    | .ok llm_recommendations =>
      .formatted (llm_recommendations.map formatRec)

/-! ### Topic Scorer

Modelled from the spec: the Topic Scorer of spec §4.1 has no
implementation under `src/` (no handler or module computes a
topic-overlap score), so `score` below follows the spec's words:
lower-case both topic sets, count exact matches (set intersection) at
3 points and partial matches (substring containment either way) at 1
point, double the topic score and add the average rating. -/

/-- Whether `needle` matches the next characters of `hay`. -/
def takeEq : List Char → List Char → Bool
  | [], _ => true
  | _ :: _, [] => false
  | a :: as, b :: bs => a = b && takeEq as bs

/-- Python's substring test `needle in hay` for strings. -/
def strContains (hay needle : String) : Bool :=
  (List.range (hay.data.length + 1)).any
    (fun i => takeEq needle.data (hay.data.drop i))

/-- Lower-cased topic set. -/
def lowerTopics (s : Finset String) : Finset String := s.image String.toLower

/-- Modelled from the spec: the combined topic score — each lower-cased
candidate topic contributes 3 if it equals a liked topic and 1 for every
liked topic one of whose sides contains the other as a substring. -/
def topicScore (cand liked : Finset String) : ℕ :=
  (lowerTopics cand).sum (fun t =>
    (if t ∈ lowerTopics liked then 3 else 0) +
      ((lowerTopics liked).filter
        (fun u => strContains t u || strContains u t)).card)

/-- Modelled from the spec: `score(candidateTopics, likedTopics,
averageRating) = topicScore * 2 + averageRating`. -/
def score (cand liked : Finset String) (averageRating : ℚ) : ℚ :=
  (topicScore cand liked : ℚ) * 2 + averageRating

/-! ### Helper lemmas -/

/-- A successful Python index lookup returns an element of the list. -/
theorem pyIndex_mem {l : List α} {i : Int} {b : α}
    (h : pyIndex l i = some b) : b ∈ l := by
  unfold pyIndex at h
  split at h
  · exact List.get?_mem h
  · split at h
    · exact List.get?_mem h
    · exact absurd h (by simp)

/-- Every book picked by the ranking loop comes from the list it
indexes. -/
theorem pickAll_mem {l : List Book} :
    ∀ {rs : List Int} {bs : List Book},
      pickAll l rs = some bs → ∀ b ∈ bs, b ∈ l := by
  intro rs
  induction rs with
  | nil =>
    intro bs h b hb
    simp only [pickAll, Option.some.injEq] at h
    subst h
    simp at hb
  | cons r rs ih =>
    intro bs h b hb
    simp only [pickAll] at h
    cases hidx : pyIndex l (r - 1) with
    | none => simp [hidx] at h
    | some b0 =>
      rw [hidx] at h
      cases hrest : pickAll l rs with
      | none => simp [hrest] at h
      | some bs0 =>
        rw [hrest] at h
        simp only [Option.some.injEq] at h
        subst h
        rcases List.mem_cons.mp hb with hbb | hbb
        · subst hbb
          exact pyIndex_mem hidx
        · exact ih hrest b hbb

/-- Every book the engine returns is drawn from the unrated sublist of
the available books. -/
theorem get_recommendations_subset_unrated (rankings : Option (List Int))
    (user_books available_books : List Book)
    (user_ratings : List (String × Int)) (n : ℕ) :
    ∀ b ∈ get_recommendations rankings user_books available_books
        user_ratings n,
      b ∈ available_books.filter
        (fun x => (ratingsLookup user_ratings x.id).isNone) := by
  intro b hb
  unfold get_recommendations at hb
  set unrated := available_books.filter
      (fun x => (ratingsLookup user_ratings x.id).isNone) with hu
  by_cases h1 : unrated = []
  · simp [h1] at hb
  · rw [if_neg h1] at hb
    have hsorted : b ∈ (unrated.insertionSort ratingGE).take n → b ∈ unrated :=
      fun h => (List.mem_insertionSort ratingGE).mp (List.mem_of_mem_take h)
    by_cases h2 : user_books.filter
        (fun x => 4 ≤ ratingsGetD user_ratings x.id) = []
    · rw [if_pos h2] at hb
      exact hsorted hb
    · rw [if_neg h2] at hb
      cases rankings with
      | none => exact hsorted hb
      | some rs =>
        simp only at hb
        cases hp : pickAll unrated (rs.take n) with
        | none => rw [hp] at hb; exact hsorted hb
        | some bs => rw [hp] at hb; exact pickAll_mem hp b hb

/-- A book in the unrated sublist has no key in the ratings dict. -/
theorem unrated_not_rated {available_books : List Book}
    {user_ratings : List (String × Int)} {b : Book}
    (hb : b ∈ available_books.filter
      (fun x => (ratingsLookup user_ratings x.id).isNone)) :
    b.id ∉ user_ratings.map Prod.fst := by
  rw [List.mem_filter] at hb
  have hnone : ratingsLookup user_ratings b.id = none := by
    have := hb.2
    simp only [Option.isNone_iff_eq_none, decide_eq_true_eq] at this
    exact this
  intro hmem
  rcases List.mem_map.mp hmem with ⟨p, hp, hfst⟩
  have := (List.find?_eq_none.mp (by
    unfold ratingsLookup at hnone
    exact Option.map_eq_none'.mp hnone)) p hp
  simp [hfst] at this

/-- A stable sort leaves the relative order of books with any fixed
average rating unchanged: filtering the sorted list at one rating value
gives exactly the filtered input list. -/
theorem insertionSort_filter_ratingEq (l : List Book) (v : ℚ) :
    (l.insertionSort ratingGE).filter (fun b => b.average_rating = v)
      = l.filter (fun b => b.average_rating = v) := by
  have hpair :
      (l.filter (fun b => b.average_rating = v)).Pairwise ratingGE := by
    apply List.pairwise_of_forall_mem_list
    intro a ha b hb
    have ha2 := (List.mem_filter.mp ha).2
    have hb2 := (List.mem_filter.mp hb).2
    simp only [decide_eq_true_eq] at ha2 hb2
    unfold ratingGE
    rw [ha2, hb2]
  have hsub : (l.filter (fun b => b.average_rating = v)).Sublist
      (l.insertionSort ratingGE) :=
    List.sublist_insertionSort hpair (List.filter_sublist l)
  have hsub2 := List.Sublist.filter (fun b => decide (b.average_rating = v)) hsub
  rw [List.filter_eq_self.mpr (fun a ha => (List.mem_filter.mp ha).2)] at hsub2
  have hperm : ((l.insertionSort ratingGE).filter
        (fun b => b.average_rating = v)).Perm
      (l.filter (fun b => b.average_rating = v)) :=
    List.Perm.filter _ (List.perm_insertionSort ratingGE l)
  exact (List.Sublist.eq_of_length hsub2 hperm.length_eq.symm).symm

/-! ### Claim theorems -/

/-- Concrete book used to refute claim C1. -/
def c1_book : Book :=
  ⟨"b1", "Clean Architecture", "Robert C. Martin", "d", 0, ["General"],
   none, none⟩

/-- Concrete dismissed-id set used to refute claim C1. -/
def c1_dismissed : List String := ["b1"]

/-- Claim C1 fails on the code: with an empty rating map and `"b1"`
dismissed, the engine still returns the book with id `"b1"` — no
recommendation path consults the dismissed set. -/
theorem c1_counterexample :
    c1_book ∈ get_recommendations none [] [c1_book] [] 5 ∧
    c1_book.id ∈ c1_dismissed := by
  constructor
  · show c1_book ∈ get_recommendations none [] [c1_book] [] 5
    decide
  · decide

/-- Claim C1 (amended): for every candidate book list, rating map and
dismissed-id set, the recommendation selection never returns a book
whose id is in the rated set; the dismissed set is not consulted, so a
dismissed-but-unrated book can be returned. -/
theorem c1_theorem (rankings : Option (List Int))
    (user_books available_books : List Book)
    (user_ratings : List (String × Int)) (n : ℕ) :
    ∀ b ∈ get_recommendations rankings user_books available_books
        user_ratings n,
      b.id ∉ user_ratings.map Prod.fst :=
  fun b hb => unrated_not_rated
    (get_recommendations_subset_unrated rankings user_books available_books
      user_ratings n b hb)

/-- Concrete book used to witness the amended claim C1. -/
def c1w_book : Book :=
  ⟨"w1", "Refactoring", "Martin Fowler", "d", 3, ["General"], none, none⟩

/-- Witness for the amended claim C1 at a concrete input. -/
theorem c1_witness :
    c1w_book.id ∉ ([("other", 5)] : List (String × Int)).map Prod.fst :=
  c1_theorem none [] [c1w_book] [("other", 5)] 5 c1w_book (by decide)

/-- Concrete book used to refute claim C8. -/
def c8_book : Book :=
  ⟨"x8", "Code Complete", "Steve McConnell", "d", 2, ["General"],
   none, none⟩

/-- Concrete dismissed-id set used to refute claim C8. -/
def c8_dismissed : List String := ["x8"]

/-- Claim C8 fails on the code: with an empty rating map, the dismissed
set `{"x8"}` covers the only candidate (rated ∪ dismissed is the whole
candidate set), yet the engine returns a non-empty result, because
dismissed ids are never excluded. -/
theorem c8_counterexample :
    get_recommendations none [] [c8_book] [] 5 ≠ [] ∧
    ∀ b ∈ [c8_book],
      b.id ∈ (([] : List (String × Int)).map Prod.fst) ∨
      b.id ∈ c8_dismissed := by
  constructor
  · show get_recommendations none [] [c8_book] [] 5 ≠ []
    decide
  · decide

/-- Claim C8 (amended): if every candidate's id is in the rated set
(so the code's eligible set — the unrated books — is empty), the
recommendation call returns the empty list, and, being a total
function, raises no error.  Coverage by rated ∪ dismissed is not
sufficient, since dismissed ids are not excluded. -/
theorem c8_theorem (rankings : Option (List Int))
    (user_books available_books : List Book)
    (user_ratings : List (String × Int)) (n : ℕ)
    (hcov : ∀ b ∈ available_books, b.id ∈ user_ratings.map Prod.fst) :
    get_recommendations rankings user_books available_books user_ratings n
      = [] := by
  have hnil : available_books.filter
      (fun x => (ratingsLookup user_ratings x.id).isNone) = [] := by
    rw [List.filter_eq_nil_iff]
    intro a ha
    rcases List.mem_map.mp (hcov a ha) with ⟨p, hp, hfst⟩
    have hsome : (user_ratings.find? (fun q => q.1 = a.id)).isSome = true :=
      List.find?_isSome.mpr ⟨p, hp, by simp [hfst]⟩
    simp only [ratingsLookup, Option.isNone_iff_eq_none, Option.map_eq_none',
      Bool.not_eq_true, decide_eq_true_eq]
    intro hnone
    rw [hnone] at hsome
    simp at hsome
  simp [get_recommendations, hnil]

/-- Witness for the amended claim C8 at a concrete input. -/
theorem c8_witness :
    get_recommendations none [] [c8_book] [("x8", 3)] 5 = [] :=
  c8_theorem none [] [c8_book] [("x8", 3)] 5 (by decide)

/-- Claim C7: when no liked book exists (none rated ≥ 4), the engine
returns the eligible (unrated) books sorted by average rating in
descending order, truncated to `num_recommendations`, by a stable sort:
the result is a prefix of a permutation `s` of the eligible list that is
sorted descending and whose books at each fixed rating value appear in
their original retrieval order. -/
theorem c7_theorem (rankings : Option (List Int))
    (user_books available_books : List Book)
    (user_ratings : List (String × Int)) (n : ℕ)
    (hliked : user_books.filter
      (fun b => 4 ≤ ratingsGetD user_ratings b.id) = []) :
    ∃ s : List Book,
      s.Perm (available_books.filter
        (fun b => (ratingsLookup user_ratings b.id).isNone)) ∧
      s.Sorted ratingGE ∧
      (∀ v : ℚ, s.filter (fun b => b.average_rating = v)
        = (available_books.filter
            (fun b => (ratingsLookup user_ratings b.id).isNone)).filter
          (fun b => b.average_rating = v)) ∧
      get_recommendations rankings user_books available_books user_ratings n
        = s.take n := by
  refine ⟨(available_books.filter
      (fun b => (ratingsLookup user_ratings b.id).isNone)).insertionSort
        ratingGE,
    List.perm_insertionSort _ _, List.sorted_insertionSort _ _,
    fun v => insertionSort_filter_ratingEq _ v, ?_⟩
  by_cases h1 : available_books.filter
      (fun b => (ratingsLookup user_ratings b.id).isNone) = []
  · simp [get_recommendations, h1]
  · simp [get_recommendations, h1, hliked]

/-- Concrete books used to witness claim C7. -/
def c7_books : List Book :=
  [⟨"p1", "B1", "A1", "d", 3, ["General"], none, none⟩,
   ⟨"p2", "B2", "A2", "d", (24 : ℚ) / 5, ["General"], none, none⟩,
   ⟨"p3", "B3", "A3", "d", (24 : ℚ) / 5, ["General"], none, none⟩,
   ⟨"p4", "B4", "A4", "d", 1, ["General"], none, none⟩]

/-- Witness for claim C7 at a concrete input (the spec's example with
ratings `[3.0, 4.8, 4.8, 1.0]`). -/
theorem c7_witness :
    ∃ s : List Book,
      s.Perm (c7_books.filter
        (fun b => (ratingsLookup [] b.id).isNone)) ∧
      s.Sorted ratingGE ∧
      (∀ v : ℚ, s.filter (fun b => b.average_rating = v)
        = (c7_books.filter
            (fun b => (ratingsLookup [] b.id).isNone)).filter
          (fun b => b.average_rating = v)) ∧
      get_recommendations none [] c7_books [] 5 = s.take 5 :=
  c7_theorem none [] c7_books [] 5 (by decide)

/-- Database state used to evaluate claim C4's failing input: one
existing book `"b1"` with no ratings. -/
def c4_db : DB := ⟨[⟨"b1", 0⟩], []⟩

/-- Claim C4 at the failing input: submitting rating 6 for the existing
book `"b1"` is rejected before persistence with the explanatory message,
but the blanket `except Exception` re-raises the validation error as
HTTP 500 — a server error, not the client error the claim (and the
inner `raise HTTPException(400, ...)`) intends. -/
theorem c4_theorem :
    add_rating c4_db "b1" 6 "2024-01-01T00:00:00" 1
      = (.error ⟨500, "400: Rating must be between 1 and 5"⟩, c4_db) ∧
    (add_rating c4_db "b1" 6 "2024-01-01T00:00:00" 1).2.ratings = [] := by
  constructor <;> rfl

/-- Claim C9: a valid rating submitted for an existing book that already
has exactly one rating row succeeds, updates that row in place (same
length, same row ids, at most one row for the book remains), and leaves
the book's stored average equal to the mean of its rating rows. -/
theorem c9_theorem (db : DB) (book_id : String) (rating : Int)
    (now : String) (fresh : ℕ)
    (hbook : db.books.any (fun b => b.id = book_id) = true)
    (hlo : 1 ≤ rating) (hhi : rating ≤ 5)
    (hone : (db.ratings.filter (fun r => r.book_id = book_id)).length = 1) :
    ∃ resp db',
      add_rating db book_id rating now fresh = (.ok resp, db') ∧
      (db'.ratings.filter (fun r => r.book_id = book_id)).length = 1 ∧
      db'.ratings.length = db.ratings.length ∧
      db'.ratings.map (fun r => r.rowId) = db.ratings.map (fun r => r.rowId) ∧
      (∀ r ∈ db'.ratings.filter (fun r => r.book_id = book_id),
        r.rating = rating) ∧
      (∀ b ∈ db'.books, b.id = book_id →
        b.average_rating = (ratingAvg
          (db'.ratings.filter (fun r => r.book_id = book_id))).getD 0) := by
  have hex : (db.ratings.find? (fun r => r.book_id = book_id)).isSome
      = true := by
    rw [List.find?_isSome]
    have hpos : 0 < (db.ratings.filter
        (fun r => r.book_id = book_id)).length := by omega
    obtain ⟨y, hy⟩ := List.exists_mem_of_length_pos hpos
    exact ⟨y, (List.mem_filter.mp hy).1, (List.mem_filter.mp hy).2⟩
  set upd : RatingRow → RatingRow := fun r =>
    if r.book_id = book_id then { r with rating := rating, timestamp := now }
    else r with hupd
  have hupd_book : ∀ r, (upd r).book_id = r.book_id := by
    intro r
    by_cases hr : r.book_id = book_id <;> simp [hupd, hr]
  have hupd_row : ∀ r, (upd r).rowId = r.rowId := by
    intro r
    by_cases hr : r.book_id = book_id <;> simp [hupd, hr]
  set ratings2 := db.ratings.map upd with hr2
  have hfilt : ratings2.filter (fun r => r.book_id = book_id)
      = (db.ratings.filter (fun r => r.book_id = book_id)).map upd := by
    rw [hr2, List.filter_map]
    congr 1
    apply List.filter_congr
    intro x _
    simp [Function.comp, hupd_book x]
  set stored := (ratingAvg (ratings2.filter
      (fun r => r.book_id = book_id))).getD 0 with hst
  set books2 := db.books.map (fun b =>
    if b.id = book_id then { b with average_rating := stored } else b)
    with hb2
  have hmain : add_rating db book_id rating now fresh
      = (.ok ⟨"Rating submitted successfully", book_id, rating, stored⟩,
         ⟨books2, ratings2⟩) := by
    unfold add_rating add_rating_inner
    rw [if_neg (not_not_intro hbook), if_neg (not_not_intro ⟨hlo, hhi⟩)]
    simp only [hex, if_true]
  refine ⟨_, _, hmain, ?_, ?_, ?_, ?_, ?_⟩
  · rw [hfilt, List.length_map, hone]
  · rw [hr2, List.length_map]
  · rw [hr2, List.map_map]
    apply List.map_congr_left
    intro r _
    exact hupd_row r
  · intro r hr
    rw [hfilt] at hr
    rcases List.mem_map.mp hr with ⟨r0, hr0, hrr⟩
    have hbid : r0.book_id = book_id := by
      have := (List.mem_filter.mp hr0).2
      simpa using this
    rw [← hrr]
    simp [hupd, hbid]
  · intro b hb hid
    simp only [hb2, List.mem_map] at hb
    rcases hb with ⟨b0, _, hbb⟩
    by_cases h0 : b0.id = book_id
    · rw [← hbb, if_pos h0]
    · rw [← hbb, if_neg h0] at hid ⊢
      exact absurd hid h0

/-- Database used to witness claim C9: book `"b1"` already carries the
single rating row `(1, "b1", 3)`. -/
def c9_db : DB := ⟨[⟨"b1", 3⟩], [⟨1, "b1", 3, "t0"⟩]⟩

/-- Witness for claim C9 at a concrete input: re-rating `"b1"` with 4.  -/
theorem c9_witness :
    ∃ resp db',
      add_rating c9_db "b1" 4 "t1" 2 = (.ok resp, db') ∧
      (db'.ratings.filter (fun r => r.book_id = "b1")).length = 1 ∧
      db'.ratings.length = c9_db.ratings.length ∧
      db'.ratings.map (fun r => r.rowId)
        = c9_db.ratings.map (fun r => r.rowId) ∧
      (∀ r ∈ db'.ratings.filter (fun r => r.book_id = "b1"),
        r.rating = 4) ∧
      (∀ b ∈ db'.books, b.id = "b1" →
        b.average_rating = (ratingAvg
          (db'.ratings.filter (fun r => r.book_id = "b1"))).getD 0) :=
  c9_theorem c9_db "b1" 4 "t1" 2 (by decide) (by decide) (by decide)
    (by decide)

/-- Claim C3: if every remote attempt times out, the tenacity-wrapped
oracle makes exactly 3 remote call attempts, sleeps the bounded
exponential backoff (`wait_exponential` with multiplier 1, min 4,
max 10 — every sleep is at least 4 and at most 10 time-units) between
them, ends in a `RetryError`, and the caller of
`get_personalized_recommendations` receives the static fallback list
instead of a raised error. -/
theorem c3_theorem (k : String) (sample : List (Fin 5))
    (responses : ℕ → GeminiResponse)
    (user_history : List HistoryBook) (user_ratings : List (String × ℚ))
    (hall : ∀ n, responses n = .timeout)
    (hrated : build_rated_books user_history user_ratings ≠ []) :
    (generate_gemini_recommendations (some k) sample responses).attempts
        = 3 ∧
    (generate_gemini_recommendations (some k) sample responses).remoteCalls
        = 3 ∧
    (generate_gemini_recommendations (some k) sample responses).result
        = .error () ∧
    (generate_gemini_recommendations (some k) sample responses).waits
        = [wait_exponential 1 4 10 1, wait_exponential 1 4 10 2] ∧
    (generate_gemini_recommendations (some k) sample responses).waits
        = [4, 4] ∧
    (∀ w ∈ (generate_gemini_recommendations (some k) sample responses).waits,
      4 ≤ w ∧ w ≤ 10) ∧
    get_personalized_recommendations (some k) sample responses user_history
        user_ratings
      = .fallbackRaw (get_fallback_recommendations sample) := by
  have h1 := hall 1
  have h2 := hall 2
  have h3 := hall 3
  have htrace : generate_gemini_recommendations (some k) sample responses
      = ⟨.error (), 3, 3, [wait_exponential 1 4 10 1,
          wait_exponential 1 4 10 2]⟩ := by
    show retryGo _ 3 1 = _
    rw [show (3 : ℕ) = 1 + 2 from rfl, retryGo]
    simp only [h1, generate_gemini_attempt]
    rw [show (1 + 1 : ℕ) = 0 + 2 from rfl, retryGo]
    simp only [h2, generate_gemini_attempt]
    rw [show (0 + 1 : ℕ) = 1 from rfl, retryGo]
    simp only [h3, generate_gemini_attempt]
    rfl
  refine ⟨by rw [htrace], by rw [htrace], by rw [htrace], by rw [htrace],
    by rw [htrace]; rfl, ?_, ?_⟩
  · rw [htrace]
    intro w hw
    simp only [List.mem_cons, List.not_mem_nil, or_false] at hw
    rcases hw with h | h <;> subst h <;> exact ⟨by decide, by decide⟩
  · unfold get_personalized_recommendations
    rw [if_neg hrated, htrace]

/-- History book used in the witnesses of the oracle claims. -/
def c3_history : List HistoryBook := [⟨"h1", "SICP", "Abelson", ["Lisp"]⟩]

/-- Witness for claim C3 at a concrete input: every attempt times out. -/
theorem c3_witness :
    (generate_gemini_recommendations (some "key") [0, 1, 2, 3, 4]
        (fun _ => .timeout)).attempts = 3 ∧
    (generate_gemini_recommendations (some "key") [0, 1, 2, 3, 4]
        (fun _ => .timeout)).remoteCalls = 3 ∧
    (generate_gemini_recommendations (some "key") [0, 1, 2, 3, 4]
        (fun _ => .timeout)).result = .error () ∧
    (generate_gemini_recommendations (some "key") [0, 1, 2, 3, 4]
        (fun _ => .timeout)).waits
      = [wait_exponential 1 4 10 1, wait_exponential 1 4 10 2] ∧
    (generate_gemini_recommendations (some "key") [0, 1, 2, 3, 4]
        (fun _ => .timeout)).waits = [4, 4] ∧
    (∀ w ∈ (generate_gemini_recommendations (some "key") [0, 1, 2, 3, 4]
        (fun _ => .timeout)).waits, 4 ≤ w ∧ w ≤ 10) ∧
    get_personalized_recommendations (some "key") [0, 1, 2, 3, 4]
        (fun _ => .timeout) c3_history [("h1", 5)]
      = .fallbackRaw (get_fallback_recommendations [0, 1, 2, 3, 4]) :=
  c3_theorem "key" [0, 1, 2, 3, 4] (fun _ => .timeout) c3_history
    [("h1", 5)] (fun _ => rfl) (by decide)

/-- Claim C5: a response that fails to parse as JSON is not retried —
the oracle returns the fallback list after exactly one attempt — and the
caller of `get_personalized_recommendations` receives a formatted result
rather than an error. -/
theorem c5_theorem (k : String) (sample : List (Fin 5))
    (responses : ℕ → GeminiResponse) (raw : String)
    (user_history : List HistoryBook) (user_ratings : List (String × ℚ))
    (hfirst : responses 1 = .invalidJson raw)
    (hrated : build_rated_books user_history user_ratings ≠ []) :
    (generate_gemini_recommendations (some k) sample responses).attempts
        = 1 ∧
    (generate_gemini_recommendations (some k) sample responses).result
        = .ok (get_fallback_recommendations sample) ∧
    (generate_gemini_recommendations (some k) sample responses).waits
        = [] ∧
    get_personalized_recommendations (some k) sample responses user_history
        user_ratings
      = .formatted ((get_fallback_recommendations sample).map formatRec) := by
  have htrace : generate_gemini_recommendations (some k) sample responses
      = ⟨.ok (get_fallback_recommendations sample), 1, 1, []⟩ := by
    show retryGo _ 3 1 = _
    rw [show (3 : ℕ) = 1 + 2 from rfl, retryGo]
    simp only [hfirst, generate_gemini_attempt]
    rfl
  refine ⟨by rw [htrace], by rw [htrace], by rw [htrace], ?_⟩
  unfold get_personalized_recommendations
  rw [if_neg hrated, htrace]

/-- Witness for claim C5 at a concrete input: the first response is
unparseable JSON. -/
theorem c5_witness :
    (generate_gemini_recommendations (some "key") [0, 1, 2, 3, 4]
        (fun _ => .invalidJson "oops")).attempts = 1 ∧
    (generate_gemini_recommendations (some "key") [0, 1, 2, 3, 4]
        (fun _ => .invalidJson "oops")).result
      = .ok (get_fallback_recommendations [0, 1, 2, 3, 4]) ∧
    (generate_gemini_recommendations (some "key") [0, 1, 2, 3, 4]
        (fun _ => .invalidJson "oops")).waits = [] ∧
    get_personalized_recommendations (some "key") [0, 1, 2, 3, 4]
        (fun _ => .invalidJson "oops") c3_history [("h1", 5)]
      = .formatted ((get_fallback_recommendations [0, 1, 2, 3, 4]).map
          formatRec) :=
  c5_theorem "key" [0, 1, 2, 3, 4] (fun _ => .invalidJson "oops") "oops"
    c3_history [("h1", 5)] rfl (by decide)

/-- Claim C6: with no API credential configured, the oracle makes no
remote call at all, returns after one invocation, never surfaces an
error, and its result is exactly the static fallback set — the whole
5-element pool (size `min 5 (pool size)`) in the sampled order. -/
theorem c6_theorem (sample : List (Fin 5)) (responses : ℕ → GeminiResponse)
    (hnodup : sample.Nodup) (hlen : sample.length = 5) :
    (generate_gemini_recommendations none sample responses).remoteCalls
        = 0 ∧
    (generate_gemini_recommendations none sample responses).attempts = 1 ∧
    (generate_gemini_recommendations none sample responses).result
        = .ok (get_fallback_recommendations sample) ∧
    (get_fallback_recommendations sample).length
        = min 5 fallback_books.length ∧
    (get_fallback_recommendations sample).toFinset
        = fallback_books.toFinset := by
  have htrace : generate_gemini_recommendations none sample responses
      = ⟨.ok (get_fallback_recommendations sample), 1, 0, []⟩ := by
    show retryGo _ 3 1 = _
    rw [show (3 : ℕ) = 1 + 2 from rfl, retryGo]
    simp only [generate_gemini_attempt]
    rfl
  have huniv : ∀ j : Fin 5, j ∈ sample := by
    have hcard : sample.toFinset.card = Fintype.card (Fin 5) := by
      rw [List.toFinset_card_of_nodup hnodup, hlen]
      rfl
    have := Finset.eq_univ_of_card sample.toFinset hcard
    intro j
    have hj : j ∈ sample.toFinset := by rw [this]; exact Finset.mem_univ j
    exact List.mem_toFinset.mp hj
  refine ⟨by rw [htrace], by rw [htrace], by rw [htrace], ?_, ?_⟩
  · show (sample.map _).length = min 5 fallback_books.length
    rw [List.length_map, hlen]
    rfl
  · ext x
    simp only [List.mem_toFinset, get_fallback_recommendations,
      List.mem_map]
    constructor
    · rintro ⟨i, _, hi⟩
      rw [← hi]
      exact List.get_mem fallback_books i.val i.isLt
    · intro hx
      rcases List.mem_iff_get.mp hx with ⟨n, hn⟩
      refine ⟨⟨n.val, n.isLt⟩, huniv _, ?_⟩
      rw [← hn]

/-- Witness for claim C6 at a concrete input: the identity sample. -/
theorem c6_witness :
    (generate_gemini_recommendations none [0, 1, 2, 3, 4]
        (fun _ => .timeout)).remoteCalls = 0 ∧
    (generate_gemini_recommendations none [0, 1, 2, 3, 4]
        (fun _ => .timeout)).attempts = 1 ∧
    (generate_gemini_recommendations none [0, 1, 2, 3, 4]
        (fun _ => .timeout)).result
      = .ok (get_fallback_recommendations [0, 1, 2, 3, 4]) ∧
    (get_fallback_recommendations [0, 1, 2, 3, 4]).length
      = min 5 fallback_books.length ∧
    (get_fallback_recommendations [0, 1, 2, 3, 4]).toFinset
      = fallback_books.toFinset :=
  c6_theorem [0, 1, 2, 3, 4] (fun _ => .timeout) (by decide) (by decide)

/-- Claim C2: the Topic Scorer returns
`(exactMatches * 3 + partialMatches * 1) * 2 + averageRating`, where
`exactMatches` is the cardinality of the intersection of the
lower-cased topic sets and `partialMatches` counts the pairs of
lower-cased topics one of which contains the other as a substring. -/
theorem c2_theorem (cand liked : Finset String) (r : ℚ) :
    score cand liked r
      = (((lowerTopics cand ∩ lowerTopics liked).card * 3
          + ((lowerTopics cand ×ˢ lowerTopics liked).filter
              (fun p => strContains p.1 p.2 || strContains p.2 p.1)).card
            * 1 : ℕ) : ℚ) * 2 + r := by
  have hnat : topicScore cand liked
      = (lowerTopics cand ∩ lowerTopics liked).card * 3
        + ((lowerTopics cand ×ˢ lowerTopics liked).filter
            (fun p => strContains p.1 p.2 || strContains p.2 p.1)).card
          * 1 := by
    unfold topicScore
    rw [Finset.sum_add_distrib]
    congr 1
    · rw [Finset.sum_ite_mem, Finset.sum_const, smul_eq_mul, mul_comm]
    · rw [mul_one]
      simp only [Finset.card_filter]
      exact (Finset.sum_product' _ _ _).symm
  unfold score
  rw [hnat]

/-- The hex rendering of a byte string has two characters per byte. -/
theorem bytesToHex_length (bs : List ℕ) :
    (bytesToHex bs).length = 2 * bs.length := by
  induction bs with
  | nil => rfl
  | cons b bs ih =>
    simp only [bytesToHex, List.flatMap_cons] at ih ⊢
    simp [ih]
    omega

/-- A SHA-256 digest always has 32 bytes. -/
theorem digestBytes_length (st : Hash8) : (digestBytes st).length = 32 := by
  simp [digestBytes, wordBytes]

/-- Every character of a hex rendering is a hex digit. -/
theorem mem_bytesToHex {c : Char} {bs : List ℕ} (h : c ∈ bytesToHex bs) :
    c ∈ hexDigits := by
  unfold bytesToHex at h
  rcases List.mem_flatMap.mp h with ⟨b, _, hc⟩
  have : c = hexChar (b / 16) ∨ c = hexChar b := by
    simpa using hc
  rcases this with h2 | h2 <;> rw [h2] <;>
    exact List.get_mem hexDigits _ _

/-- Claim C10: `generate_book_id` depends only on the concatenation
`title ++ author`, so the distinct nominal books `("ab","c")` and
`("a","bc")` collide on the same 16-hex-character id, while for any
fixed pair the id is deterministic. -/
theorem c10_theorem :
    ("ab", "c") ≠ ("a", "bc") ∧
    generate_book_id "ab" "c" = generate_book_id "a" "bc" ∧
    (∀ t1 a1 t2 a2 : String, t1 ++ a1 = t2 ++ a2 →
      generate_book_id t1 a1 = generate_book_id t2 a2) ∧
    (∀ t a : String, (generate_book_id t a).length = 16) ∧
    (∀ t a : String, ∀ c ∈ (generate_book_id t a).data, c ∈ hexDigits) ∧
    (∀ t a : String, generate_book_id t a = generate_book_id t a) := by
  have hcongr : ∀ t1 a1 t2 a2 : String, t1 ++ a1 = t2 ++ a2 →
      generate_book_id t1 a1 = generate_book_id t2 a2 := by
    intro t1 a1 t2 a2 h
    unfold generate_book_id
    rw [h]
  refine ⟨by decide, hcongr "ab" "c" "a" "bc" (by decide), hcongr,
    ?_, ?_, fun t a => rfl⟩
  · intro t a
    have hlen : (generate_book_id t a).length
        = ((bytesToHex (digestBytes (sha256
            (utf8Encode (t ++ a))))).take 16).length := rfl
    rw [hlen, List.length_take, bytesToHex_length, digestBytes_length]
    decide
  · intro t a c hc
    have hc2 : c ∈ (bytesToHex (digestBytes (sha256
        (utf8Encode (t ++ a))))).take 16 := hc
    exact mem_bytesToHex (List.mem_of_mem_take hc2)

/-- Witness for claim C10's concatenation-congruence at a concrete
input. -/
theorem c10_witness :
    generate_book_id "x" "yz" = generate_book_id "xy" "z" :=
  c10_theorem.2.2.1 "x" "yz" "xy" "z" (by decide)

end Liberopus
